import Mathlib

/-!
Shallow embedding of `src/lead_management.py`: the `Lead` / `ScoringCriteria`
data model, the scoring engine embedded in `LeadManager`, and the repository
operations, together with proofs settling the specification claims.

Python `float` is modelled as `ℚ`, Python `int` as `ℤ`, Python `None`-able
values as `Option`.  Fields that the Python code stores dynamically typed
(`status` / `lead_source` may hold an enum member or a raw `str`;
`created_at` / `updated_at` / `last_contacted` / `next_follow_up` may hold
`None`, a `str`, or a `datetime`) are modelled by small sum types.  Raised
exceptions are modelled by `Except PyError`, recording the Python exception
class and message.  Mutation is modelled by explicit state passing: each
repository operation takes a `LeadManager` and returns the new one.
Nondeterministic inputs (`uuid.uuid4()`, `datetime.now()`) are passed in as
explicit string parameters.
-/

/-- Python `str.lower()` (ASCII, as used by the title/email data in the source). -/
def strLower (s : String) : String := String.mk (s.data.map Char.toLower)

/-- Auxiliary for `substrIn`: does `needle` occur at the head of `hay`? -/
def listStartsWith : List Char → List Char → Bool
  | [], _ => true
  | _ :: _, [] => false
  | c :: cs, d :: ds => c = d && listStartsWith cs ds

/-- Auxiliary for `substrIn`: does `needle` occur anywhere in `hay`? -/
def listContains (needle : List Char) : List Char → Bool
  | [] => listStartsWith needle []
  | d :: ds => listStartsWith needle (d :: ds) || listContains needle ds

/-- Python substring test `needle in hay`. -/
def substrIn (needle hay : String) : Bool := listContains needle.data hay.data

/-- Python `int(x)` on a float: truncation toward zero. -/
def pyInt (q : ℚ) : ℤ := q.num.tdiv q.den

/-- Python `round(x)` to an integer: round half to even. -/
def roundHalfEven (q : ℚ) : ℤ :=
  if q - ⌊q⌋ < 1/2 then ⌊q⌋
  else if 1/2 < q - ⌊q⌋ then ⌊q⌋ + 1
  else if 2 ∣ ⌊q⌋ then ⌊q⌋ else ⌊q⌋ + 1

/-- Python `round(x, 2)`: round to two decimal places, half to even. -/
def round2 (q : ℚ) : ℚ := (roundHalfEven (q * 100) : ℚ) / 100

/-- Lookup in a Python `dict` modelled as an insertion-ordered association list. -/
def alookup {α : Type} (k : String) : List (String × α) → Option α
  | [] => none
  | (k', v) :: rest => if k' = k then some v else alookup k rest

/-- Python `d[k] = v` on an insertion-ordered `dict`: replace in place, else append. -/
def aupdate {α : Type} (k : String) (v : α) : List (String × α) → List (String × α)
  | [] => [(k, v)]
  | (k', v') :: rest => if k' = k then (k, v) :: rest else (k', v') :: aupdate k v rest

/-- Python truthiness of an optional int: `None` and `0` are falsy. -/
def optIntTruthy : Option ℤ → Bool
  | none => false
  | some n => decide (n ≠ 0)

/-- Python truthiness of an optional string: `None` and `""` are falsy. -/
def optStrTruthy : Option String → Bool
  | none => false
  | some s => decide (s ≠ "")

/-- Python truthiness of a string: `""` is falsy. -/
def strTruthy (s : String) : Bool := decide (s ≠ "")

/-- A raised Python exception: class name and message. -/
structure PyError where
  cls : String
  msg : String
  deriving DecidableEq

/-- Embeds `class LeadStatus(Enum)` of the source. -/
inductive LeadStatus
  | NEW | QUALIFIED | CONTACTED | MEETING_SCHEDULED
  | PROPOSAL_SENT | CLOSED_WON | CLOSED_LOST | UNQUALIFIED
  deriving DecidableEq

/-- Embeds `class LeadSource(Enum)` of the source. -/
inductive LeadSource
  | WEBSITE | LINKEDIN | EMAIL_CAMPAIGN | REFERRAL
  | COLD_OUTREACH | TRADE_SHOW | WEBINAR | OTHER
  deriving DecidableEq

/-- The `.value` string of a `LeadStatus` member. -/
def statusString : LeadStatus → String
  | .NEW => "new"
  | .QUALIFIED => "qualified"
  | .CONTACTED => "contacted"
  | .MEETING_SCHEDULED => "meeting_scheduled"
  | .PROPOSAL_SENT => "proposal_sent"
  | .CLOSED_WON => "closed_won"
  | .CLOSED_LOST => "closed_lost"
  | .UNQUALIFIED => "unqualified"

/-- The `.value` string of a `LeadSource` member. -/
def sourceString : LeadSource → String
  | .WEBSITE => "website"
  | .LINKEDIN => "linkedin"
  | .EMAIL_CAMPAIGN => "email_campaign"
  | .REFERRAL => "referral"
  | .COLD_OUTREACH => "cold_outreach"
  | .TRADE_SHOW => "trade_show"
  | .WEBINAR => "webinar"
  | .OTHER => "other"

/-- Dynamic value of `Lead.status`: the dataclass default is an enum member, but
`create_lead_objects_from_data` stores the raw input string instead. -/
inductive StatusVal
  | enum (s : LeadStatus)
  | str (s : String)
  deriving DecidableEq

/-- Dynamic value of `Lead.lead_source`, analogous to `StatusVal`. -/
inductive SourceVal
  | enum (s : LeadSource)
  | str (s : String)
  deriving DecidableEq

/-- Dynamic value of the timestamp fields.  The source declares them `str` and
assigns either `None` (dataclass default) or `str(datetime.now())`; a genuine
`datetime` object (the only value supporting `.isoformat()`) is never stored. -/
inductive TimeVal
  | pynone
  | str (s : String)
  | datetime (iso : String)
  deriving DecidableEq

/-- Python truthiness of a timestamp field. -/
def timeTruthy : TimeVal → Bool
  | .pynone => false
  | .str s => decide (s ≠ "")
  | .datetime _ => true

/-- Python `x.value` on a status field: fails with `AttributeError` on a raw string. -/
def statusValue : StatusVal → Except PyError String
  | .enum s => .ok (statusString s)
  | .str _ => .error { cls := "AttributeError", msg := "str object has no attribute value" }

/-- Python `x.value` on a lead-source field: fails with `AttributeError` on a raw string. -/
def sourceValue : SourceVal → Except PyError String
  | .enum s => .ok (sourceString s)
  | .str _ => .error { cls := "AttributeError", msg := "str object has no attribute value" }

/-- Python `x.isoformat()` on a timestamp field: only a `datetime` object has it. -/
def isoformat : TimeVal → Except PyError String
  | .pynone => .error { cls := "AttributeError", msg := "NoneType object has no attribute isoformat" }
  | .str _ => .error { cls := "AttributeError", msg := "str object has no attribute isoformat" }
  | .datetime s => .ok s

/-- Python `x.isoformat() if x else None` (export of `last_contacted` / `next_follow_up`). -/
def isoformatIfSet (t : TimeVal) : Except PyError (Option String) :=
  if timeTruthy t then
    match isoformat t with
    | .error e => .error e
    | .ok s => .ok (some s)
  else .ok none

/-- Embeds `@dataclass ScoringCriteria` with its field defaults. -/
structure ScoringCriteria where
  company_size_weight : ℚ := 0.25
  budget_weight : ℚ := 0.30
  authority_weight : ℚ := 0.20
  need_weight : ℚ := 0.15
  timeline_weight : ℚ := 0.10
  qualified_threshold : ℚ := 70
  hot_lead_threshold : ℚ := 85
  deriving DecidableEq

/-- Embeds `ScoringCriteria.validate_weights`: the five weights sum to 1.0 within 0.001. -/
def validate_weights (c : ScoringCriteria) : Bool :=
  decide (|c.company_size_weight + c.budget_weight + c.authority_weight +
            c.need_weight + c.timeline_weight - 1| < 0.001)

/-- Embeds `@dataclass Lead`. -/
structure Lead where
  first_name : String
  last_name : String
  email : String
  company : String
  phone : Option String := none
  title : Option String := none
  lead_source : SourceVal := .enum .OTHER
  status : StatusVal := .enum .NEW
  created_at : TimeVal := .pynone
  updated_at : TimeVal := .pynone
  company_size : Option ℤ := none
  annual_revenue : Option ℤ := none
  budget : Option ℤ := none
  decision_maker : Bool := false
  pain_points : List String := []
  timeline : Option String := none
  qualification_score : ℚ := 0
  notes : String := ""
  tags : List String := []
  id : String := ""
  last_contacted : TimeVal := .pynone
  next_follow_up : TimeVal := .pynone
  deriving DecidableEq

/-- Embeds `Lead.is_qualified`: compares the score against the fixed constant 70.0. -/
def is_qualified (l : Lead) : Bool := decide (l.qualification_score ≥ 70)

/-- Embeds `Lead.is_hot_lead`: compares the score against the fixed constant 85.0. -/
def is_hot_lead (l : Lead) : Bool := decide (l.qualification_score ≥ 85)

/-- Embeds `LeadManager._score_company_size`.  Note `if not company_size` is Python
truthiness: both `None` and `0` take the default branch. -/
def score_company_size (company_size : Option ℤ) : ℚ :=
  if !optIntTruthy company_size then 50
  else if company_size.getD 0 ≥ 1000 then 100
  else if company_size.getD 0 ≥ 500 then 85
  else if company_size.getD 0 ≥ 100 then 70
  else if company_size.getD 0 ≥ 50 then 55
  else if company_size.getD 0 ≥ 10 then 40
  else 25

/-- The budget banding of `LeadManager._score_budget` (the `if budget:` branch). -/
def budgetBand (b : ℤ) : ℚ :=
  if b ≥ 100000 then 100
  else if b ≥ 50000 then 80
  else if b ≥ 25000 then 60
  else if b ≥ 10000 then 40
  else 20

/-- Embeds `LeadManager._score_budget`.  The recursive call in the source,
`_score_budget(int(annual_revenue * 0.05), None)` is inlined: the estimate is
banded if truthy, and with revenue `None` the recursion returns the default 30. -/
def score_budget (budget annual_revenue : Option ℤ) : ℚ :=
  if optIntTruthy budget then budgetBand (budget.getD 0)
  else if optIntTruthy annual_revenue then
    (if pyInt ((annual_revenue.getD 0 : ℚ) * 0.05) ≠ 0 then
      budgetBand (pyInt ((annual_revenue.getD 0 : ℚ) * 0.05))
    else 30)
  else 30

/-- Embeds `any(word in title_lower for word in words)`. -/
def anyWordIn (words : List String) (hay : String) : Bool :=
  words.any (fun w => substrIn w hay)

/-- Embeds `LeadManager._score_authority`. -/
def score_authority (is_decision_maker : Bool) (title : Option String) : ℚ :=
  if is_decision_maker then 100
  else if !optStrTruthy title then 40
  else if anyWordIn ["ceo", "cto", "cfo", "cmo", "president"] (strLower (title.getD "")) then 95
  else if anyWordIn ["director", "vp", "vice president"] (strLower (title.getD "")) then 80
  else if substrIn "manager" (strLower (title.getD "")) then 65
  else if substrIn "senior" (strLower (title.getD "")) then 50
  else 35

/-- The high-value keyword list of `LeadManager._score_need`. -/
def high_value_keywords : List String :=
  ["efficiency", "cost", "revenue", "growth", "scale", "competition", "manual", "time", "error"]

/-- Embeds `sum(1 for keyword in high_value_keywords if keyword in pain_text)` where
`pain_text` joins the pain points with single spaces and lower-cases them. -/
def keyword_match_count (pain_points : List String) : ℕ :=
  (high_value_keywords.filter
    (fun k => substrIn k (strLower (String.intercalate " " pain_points)))).length

/-- Embeds `LeadManager._score_need`. -/
def score_need (pain_points : List String) : ℚ :=
  if pain_points = [] then 30
  else
    min (min ((pain_points.length : ℚ) * 25) 100 +
         min ((keyword_match_count pain_points : ℚ) * 10) 30) 100

/-- Embeds `LeadManager._score_timeline` (dict lookup with default 40.0). -/
def score_timeline (timeline : Option String) : ℚ :=
  if !optStrTruthy timeline then 40
  else if timeline.getD "" = "immediate" then 100
  else if timeline.getD "" = "3_months" then 80
  else if timeline.getD "" = "6_months" then 60
  else if timeline.getD "" = "next_year" then 30
  else 40

/-- The weighted sum computed by `LeadManager.qualify_lead` before rounding. -/
def raw_score (c : ScoringCriteria) (l : Lead) : ℚ :=
  score_company_size l.company_size * c.company_size_weight +
  score_budget l.budget l.annual_revenue * c.budget_weight +
  score_authority l.decision_maker l.title * c.authority_weight +
  score_need l.pain_points * c.need_weight +
  score_timeline l.timeline * c.timeline_weight

/-- The update `qualify_lead` performs on the fetched lead: write the rounded
score, and derive the status only when the current status is `NEW`. -/
def qualifiedLead (c : ScoringCriteria) (l : Lead) : Lead :=
  { l with
    qualification_score := round2 (raw_score c l),
    status :=
      if l.status = StatusVal.enum LeadStatus.NEW then
        (if round2 (raw_score c l) ≥ c.qualified_threshold then StatusVal.enum LeadStatus.QUALIFIED
         else StatusVal.enum LeadStatus.UNQUALIFIED)
      else l.status }

/-- The state of a `LeadManager` instance. -/
structure LeadManager where
  leads : List (String × Lead)
  scoring_criteria : ScoringCriteria
  interaction_history : List (String × List (String × String))
  deriving DecidableEq

/-- Embeds `LeadManager.qualify_lead`: returns the new state and the returned score
(`0.0` when the id is unknown). -/
def qualify_lead (m : LeadManager) (lead_id : String) : LeadManager × ℚ :=
  match alookup lead_id m.leads with
  | none => (m, 0)
  | some lead =>
    ({ m with leads := aupdate lead_id (qualifiedLead m.scoring_criteria lead) m.leads },
     (qualifiedLead m.scoring_criteria lead).qualification_score)

/-- Embeds `LeadManager.find_lead_by_email`: first lead, in insertion order, whose
email matches case-insensitively. -/
def find_lead_by_email (m : LeadManager) (email : String) : Option Lead :=
  (m.leads.map Prod.snd).find? (fun l => strLower l.email = strLower email)

/-- Embeds `LeadManager.add_lead`.  `gen_id` stands for the `uuid.uuid4()` drawn when
the lead has no id, `now` for `str(datetime.now())`.  A raised exception is
returned alongside the unchanged state (the source raises before mutating). -/
def add_lead (m : LeadManager) (lead : Lead) (gen_id now : String) :
    LeadManager × Except PyError String :=
  let lead := if lead.id = "" then { lead with id := gen_id } else lead
  if !(strTruthy lead.first_name && strTruthy lead.last_name &&
       strTruthy lead.email && strTruthy lead.company) then
    (m, .error { cls := "ValueError",
                 msg := "Lead must have first_name, last_name, email, and company" })
  else if (find_lead_by_email m lead.email).isSome then
    (m, .error { cls := "ValueError",
                 msg := "Lead with email " ++ lead.email ++ " already exists" })
  else
    let lead := { lead with updated_at := TimeVal.str now }
    let m1 : LeadManager :=
      { m with leads := aupdate lead.id lead m.leads,
               interaction_history := aupdate lead.id [] m.interaction_history }
    ((qualify_lead m1 lead.id).1, .ok lead.id)

/-- One keyword/value pair of the `**updates` dict of `LeadManager.update_lead`.
The constructors cover the lead attributes the claims exercise; `unknownKey`
stands for a key the lead does not have (skipped by the `hasattr` check). -/
inductive FieldUpdate
  | notes (v : String)
  | budget (v : Option ℤ)
  | company_size (v : Option ℤ)
  | annual_revenue (v : Option ℤ)
  | decision_maker (v : Bool)
  | timeline (v : Option String)
  | pain_points (v : List String)
  | unknownKey (key : String)
  deriving DecidableEq

/-- The dict key of a `FieldUpdate`. -/
def updateKey : FieldUpdate → String
  | .notes _ => "notes"
  | .budget _ => "budget"
  | .company_size _ => "company_size"
  | .annual_revenue _ => "annual_revenue"
  | .decision_maker _ => "decision_maker"
  | .timeline _ => "timeline"
  | .pain_points _ => "pain_points"
  | .unknownKey k => k

/-- Embeds `setattr(lead, key, value)` guarded by `hasattr(lead, key)`. -/
def applyUpdate (l : Lead) : FieldUpdate → Lead
  | .notes v => { l with notes := v }
  | .budget v => { l with budget := v }
  | .company_size v => { l with company_size := v }
  | .annual_revenue v => { l with annual_revenue := v }
  | .decision_maker v => { l with decision_maker := v }
  | .timeline v => { l with timeline := v }
  | .pain_points v => { l with pain_points := v }
  | .unknownKey _ => l

/-- The `qualification_fields` set of `LeadManager.update_lead`. -/
def qualification_fields : List String :=
  ["company_size", "annual_revenue", "budget", "decision_maker", "timeline", "pain_points"]

/-- Embeds `any(field in updates for field in qualification_fields)`. -/
def updatesTouchQualification (updates : List FieldUpdate) : Bool :=
  qualification_fields.any (fun f => updates.any (fun u => updateKey u = f))

/-- Embeds `LeadManager.update_lead`.  `now` stands for `str(datetime.now())`. -/
def update_lead (m : LeadManager) (lead_id : String) (updates : List FieldUpdate)
    (now : String) : LeadManager × Bool :=
  match alookup lead_id m.leads with
  | none => (m, false)
  | some lead =>
    let lead := updates.foldl applyUpdate lead
    let lead := { lead with updated_at := TimeVal.str now }
    let m1 : LeadManager := { m with leads := aupdate lead_id lead m.leads }
    (if updatesTouchQualification updates then (qualify_lead m1 lead_id).1 else m1, true)

/-- Embeds `LeadManager.get_qualified_leads`: filters on `Lead.is_qualified`. -/
def get_qualified_leads (m : LeadManager) : List Lead :=
  (m.leads.filter (fun p => is_qualified p.2)).map Prod.snd

/-- Embeds `LeadManager.get_hot_leads`: filters on `Lead.is_hot_lead`. -/
def get_hot_leads (m : LeadManager) : List Lead :=
  (m.leads.filter (fun p => is_hot_lead p.2)).map Prod.snd

/-- Python `==` between a dynamically typed status field and a `LeadStatus`
member: a raw string never equals an enum member. -/
def statusEqEnum : StatusVal → LeadStatus → Bool
  | .enum a, b => decide (a = b)
  | .str _, _ => false

/-- Embeds `LeadManager.get_leads_by_status`. -/
def get_leads_by_status (m : LeadManager) (status : LeadStatus) : List Lead :=
  (m.leads.filter (fun p => statusEqEnum p.2.status status)).map Prod.snd

/-- Embeds `LeadManager.update_scoring_criteria`: reject on invalid weights, else
replace the criteria and re-qualify every lead (iterating over the keys). -/
def update_scoring_criteria (m : LeadManager) (new_criteria : ScoringCriteria) :
    LeadManager × Bool :=
  if !validate_weights new_criteria then (m, false)
  else
    ((m.leads.map Prod.fst).foldl (fun acc k => (qualify_lead acc k).1)
      { m with scoring_criteria := new_criteria }, true)

/-- One entry of the `leads` object built by `LeadManager.export_leads_json`
(the §6 field set). -/
structure LeadEntry where
  first_name : String
  last_name : String
  email : String
  company : String
  phone : Option String
  title : Option String
  lead_source : String
  status : String
  created_at : String
  updated_at : String
  company_size : Option ℤ
  annual_revenue : Option ℤ
  budget : Option ℤ
  decision_maker : Bool
  pain_points : List String
  timeline : Option String
  qualification_score : ℚ
  notes : String
  tags : List String
  last_contacted : Option String
  next_follow_up : Option String
  deriving DecidableEq

/-- The export document built by `LeadManager.export_leads_json`. -/
structure ExportDoc where
  leads : List (String × LeadEntry)
  scoring_criteria : ScoringCriteria
  export_timestamp : String
  deriving DecidableEq

/-- Serialization of one lead, evaluating the dict entries in source order;
the first raised `AttributeError` aborts the export. -/
def exportLead (l : Lead) : Except PyError LeadEntry :=
  match sourceValue l.lead_source with
  | .error e => .error e
  | .ok src =>
    match statusValue l.status with
    | .error e => .error e
    | .ok st =>
      match isoformat l.created_at with
      | .error e => .error e
      | .ok ca =>
        match isoformat l.updated_at with
        | .error e => .error e
        | .ok ua =>
          match isoformatIfSet l.last_contacted with
          | .error e => .error e
          | .ok lc =>
            match isoformatIfSet l.next_follow_up with
            | .error e => .error e
            | .ok nf =>
              .ok { first_name := l.first_name, last_name := l.last_name,
                    email := l.email, company := l.company, phone := l.phone,
                    title := l.title, lead_source := src, status := st,
                    created_at := ca, updated_at := ua,
                    company_size := l.company_size,
                    annual_revenue := l.annual_revenue, budget := l.budget,
                    decision_maker := l.decision_maker,
                    pain_points := l.pain_points, timeline := l.timeline,
                    qualification_score := l.qualification_score,
                    notes := l.notes, tags := l.tags,
                    last_contacted := lc, next_follow_up := nf }

/-- The `for lead_id, lead in self.leads.items()` export loop. -/
def exportEntries : List (String × Lead) → Except PyError (List (String × LeadEntry))
  | [] => .ok []
  | (k, l) :: rest =>
    match exportLead l with
    | .error e => .error e
    | .ok entry =>
      match exportEntries rest with
      | .error e => .error e
      | .ok es => .ok ((k, entry) :: es)

/-- Embeds `LeadManager.export_leads_json`.  `now` stands for
`datetime.now().isoformat()`. -/
def export_leads_json (m : LeadManager) (now : String) : Except PyError ExportDoc :=
  match exportEntries m.leads with
  | .error e => .error e
  | .ok es =>
    .ok { leads := es, scoring_criteria := m.scoring_criteria, export_timestamp := now }

/-- One raw dictionary of the `synthetic_data` list consumed by
`create_lead_objects_from_data`; `none` models an absent key. -/
structure RawLeadData where
  first_name : Option String := none
  last_name : Option String := none
  email : Option String := none
  company : Option String := none
  phone : Option String := none
  title : Option String := none
  lead_source : Option String := none
  status : Option String := none
  company_size : Option ℤ := none
  annual_revenue : Option ℤ := none
  budget : Option ℤ := none
  decision_maker : Option Bool := none
  pain_points : Option (List String) := none
  timeline : Option String := none
  notes : Option String := none
  tags : Option (List String) := none
  deriving DecidableEq

/-- Embeds `LeadStatus(value)`: enum construction from a value string. -/
def parseLeadStatus (s : String) : Except PyError LeadStatus :=
  if s = "new" then .ok .NEW
  else if s = "qualified" then .ok .QUALIFIED
  else if s = "contacted" then .ok .CONTACTED
  else if s = "meeting_scheduled" then .ok .MEETING_SCHEDULED
  else if s = "proposal_sent" then .ok .PROPOSAL_SENT
  else if s = "closed_won" then .ok .CLOSED_WON
  else if s = "closed_lost" then .ok .CLOSED_LOST
  else if s = "unqualified" then .ok .UNQUALIFIED
  else .error { cls := "ValueError", msg := "invalid LeadStatus value" }

/-- Embeds `LeadSource(value)`: enum construction from a value string. -/
def parseLeadSource (s : String) : Except PyError LeadSource :=
  if s = "website" then .ok .WEBSITE
  else if s = "linkedin" then .ok .LINKEDIN
  else if s = "email_campaign" then .ok .EMAIL_CAMPAIGN
  else if s = "referral" then .ok .REFERRAL
  else if s = "cold_outreach" then .ok .COLD_OUTREACH
  else if s = "trade_show" then .ok .TRADE_SHOW
  else if s = "webinar" then .ok .WEBINAR
  else if s = "other" then .ok .OTHER
  else .error { cls := "ValueError", msg := "invalid LeadSource value" }

/-- Embeds `data[key]`: raises `KeyError` when the key is absent. -/
def keyGet {α : Type} (o : Option α) (key : String) : Except PyError α :=
  match o with
  | some v => .ok v
  | none => .error { cls := "KeyError", msg := key }

/-- The per-record body of `create_lead_objects_from_data`, in source order:
the two enum constructions are evaluated (and may raise), but the `Lead` is
then built from the RAW STRINGS returned by the two defaulting `data.get`
calls, not from the parsed enum members.  `gen_id`
models the `uuid.uuid4()` default of `Lead.id`. -/
def createLeadFromData (d : RawLeadData) (gen_id : String) : Except PyError Lead :=
  match parseLeadSource (d.lead_source.getD "other") with
  | .error e => .error e
  | .ok _ =>
    match parseLeadStatus (d.status.getD "new") with
    | .error e => .error e
    | .ok _ =>
      match keyGet d.first_name "first_name" with
      | .error e => .error e
      | .ok fn =>
        match keyGet d.last_name "last_name" with
        | .error e => .error e
        | .ok ln =>
          match keyGet d.email "email" with
          | .error e => .error e
          | .ok em =>
            match keyGet d.company "company" with
            | .error e => .error e
            | .ok co =>
              .ok { first_name := fn, last_name := ln, email := em, company := co,
                    phone := d.phone, title := d.title,
                    lead_source := SourceVal.str (d.lead_source.getD "other"),
                    status := StatusVal.str (d.status.getD "new"),
                    created_at := .pynone, updated_at := .pynone,
                    company_size := d.company_size,
                    annual_revenue := d.annual_revenue, budget := d.budget,
                    decision_maker := d.decision_maker.getD false,
                    pain_points := d.pain_points.getD [],
                    timeline := d.timeline, qualification_score := 0,
                    notes := d.notes.getD "", tags := d.tags.getD [],
                    id := gen_id, last_contacted := .pynone, next_follow_up := .pynone }

/-- The `for data in synthetic_data` loop of `create_lead_objects_from_data`:
a record whose construction or insertion raises is skipped, the rest proceed.
`gen i` / `nowf i` model the uuid and timestamp drawn for the i-th record. -/
def createLeadsLoop (gen nowf : ℕ → String) :
    LeadManager → List RawLeadData → ℕ → LeadManager × List String
  | m, [], _ => (m, [])
  | m, d :: rest, i =>
    match createLeadFromData d (gen i) with
    | .error _ => createLeadsLoop gen nowf m rest (i + 1)
    | .ok lead =>
      match (add_lead m lead (gen i) (nowf i)).2 with
      | .error _ => createLeadsLoop gen nowf (add_lead m lead (gen i) (nowf i)).1 rest (i + 1)
      | .ok lid =>
        ((createLeadsLoop gen nowf (add_lead m lead (gen i) (nowf i)).1 rest (i + 1)).1,
         lid :: (createLeadsLoop gen nowf (add_lead m lead (gen i) (nowf i)).1 rest (i + 1)).2)

/-- Embeds `LeadManager.create_lead_objects_from_data`. -/
def create_lead_objects_from_data (m : LeadManager) (synthetic_data : List RawLeadData)
    (gen nowf : ℕ → String) : LeadManager × List String :=
  createLeadsLoop gen nowf m synthetic_data 0

/-- The default `ScoringCriteria()` used when a `LeadManager` is built without one. -/
def defaultCriteria : ScoringCriteria := {}

/-- An empty repository under the default criteria. -/
def emptyManager : LeadManager :=
  { leads := [], scoring_criteria := defaultCriteria, interaction_history := [] }

/-- The lead of Example 1 in the spec. -/
def exampleLead1 : Lead :=
  { first_name := "Jane", last_name := "Doe", email := "jane.doe@acme.com",
    company := "Acme", company_size := some 1200, budget := some 120000,
    decision_maker := true, pain_points := ["manual processes", "cost optimization"],
    timeline := some "immediate", id := "L1" }

/-- A repository holding just the Example 1 lead under the default criteria. -/
def exampleManager1 : LeadManager :=
  { leads := [("L1", exampleLead1)], scoring_criteria := defaultCriteria,
    interaction_history := [("L1", [])] }

/-- A criteria record with default weights but custom, lower thresholds. -/
def criteriaLowThresholds : ScoringCriteria :=
  { qualified_threshold := 50, hot_lead_threshold := 55 }

/-- A stored lead whose score 59.0 sits between the custom thresholds (50/55)
and the fixed constants 70.0/85.0 of `is_qualified` / `is_hot_lead`. -/
def lead59 : Lead :=
  { first_name := "Sam", last_name := "Lee", email := "sam.lee@beta.io",
    company := "Beta", budget := some 100000, qualification_score := 59,
    status := .enum .QUALIFIED, id := "L2" }

/-- A repository with custom thresholds 50/55 holding `lead59`. -/
def managerC2 : LeadManager :=
  { leads := [("L2", lead59)], scoring_criteria := criteriaLowThresholds,
    interaction_history := [("L2", [])] }

/-- The rejected criteria of Example 4 in the spec: weights summing to 0.9. -/
def badCriteria : ScoringCriteria :=
  { company_size_weight := 0.25, budget_weight := 0.25, authority_weight := 0.2,
    need_weight := 0.1, timeline_weight := 0.1 }

/-- A criteria record whose weights sum to exactly 1.0 yet include a negative
weight — accepted by `validate_weights`. -/
def negCriteria : ScoringCriteria :=
  { company_size_weight := 2, budget_weight := -1, authority_weight := 0,
    need_weight := 0, timeline_weight := 0 }

/-- A lead whose company-size sub-score is 100 and budget sub-score is 20. -/
def leadOverflow : Lead :=
  { first_name := "Max", last_name := "Over", email := "max.over@corp.com",
    company := "Corp", company_size := some 2000, budget := some 5000, id := "L3" }

/-- A repository installing `negCriteria` and holding `leadOverflow`. -/
def managerC6 : LeadManager :=
  { leads := [("L3", leadOverflow)], scoring_criteria := negCriteria,
    interaction_history := [("L3", [])] }

/-- A minimal valid lead: required fields only, everything else at its
dataclass default (the Example 2 shape of the spec, scoring 38.0). -/
def simpleLead : Lead :=
  { first_name := "Eve", last_name := "Null", email := "eve.null@min.co",
    company := "Min", id := "L7" }

/-- State of `simpleLead` as stored by `add_lead` just before its initial scoring. -/
def leadP : Lead := { simpleLead with updated_at := TimeVal.str "2025-01-01 00:00:00" }

/-- The repository state inside `add_lead emptyManager simpleLead`, just
before the initial scoring. -/
def m1C3 : LeadManager :=
  { leads := [("L7", leadP)], scoring_criteria := defaultCriteria,
    interaction_history := [("L7", [])] }

/-- State of `simpleLead` after insertion and initial scoring: score 38.0, UNQUALIFIED. -/
def storedLead7 : Lead :=
  { simpleLead with
    updated_at := TimeVal.str "2025-01-01 00:00:00",
    qualification_score := 38,
    status := .enum .UNQUALIFIED }

/-- The repository state after `add_lead emptyManager simpleLead`. -/
def managerC3 : LeadManager :=
  { leads := [("L7", storedLead7)], scoring_criteria := defaultCriteria,
    interaction_history := [("L7", [])] }

/-- A stored lead with email `ann.ba@zeta.org`. -/
def dupBaseLead : Lead :=
  { first_name := "Ann", last_name := "Ba", email := "ann.ba@zeta.org",
    company := "Zeta", qualification_score := 38, status := .enum .UNQUALIFIED,
    id := "L4" }

/-- A repository holding `dupBaseLead`. -/
def managerC8 : LeadManager :=
  { leads := [("L4", dupBaseLead)], scoring_criteria := defaultCriteria,
    interaction_history := [("L4", [])] }

/-- A valid second lead whose email differs from the stored one only in case. -/
def dupCaseLead : Lead :=
  { first_name := "Anne", last_name := "Bb", email := "ANN.BA@ZETA.ORG",
    company := "Zeta Two", id := "L5" }

/-- A lead with a blank required field (empty `first_name`). -/
def blankLead : Lead :=
  { first_name := "", last_name := "X", email := "x@x.xy", company := "C", id := "L6" }

/-- A minimal raw ingestion record: required fields only, so `lead_source` and
`status` take their `"other"` / `"new"` defaults. -/
def rawData0 : RawLeadData :=
  { first_name := some "Eve", last_name := some "Null",
    email := some "eve.null@min.co", company := some "Min" }

/-- A lead whose `status` and `lead_source` hold raw strings instead of enum
members (the shape produced by `create_lead_objects_from_data`). -/
def rawStringTyped (l : Lead) : Prop :=
  (∃ s, l.status = StatusVal.str s) ∧ (∃ t, l.lead_source = SourceVal.str t)

theorem roundHalfEven_intCast (n : ℤ) : roundHalfEven (n : ℚ) = n := by
  simp [roundHalfEven, Int.floor_intCast]

theorem round2_of_mul_eq {q : ℚ} {n : ℤ} (h : q * 100 = (n : ℚ)) :
    round2 q = (n : ℚ) / 100 := by
  rw [round2, h, roundHalfEven_intCast]

theorem roundHalfEven_nonneg {q : ℚ} (h : 0 ≤ q) : 0 ≤ roundHalfEven q := by
  have hf : (0 : ℤ) ≤ ⌊q⌋ := Int.floor_nonneg.mpr h
  unfold roundHalfEven
  split_ifs <;> omega

theorem roundHalfEven_le {q : ℚ} {n : ℤ} (h : q ≤ (n : ℚ)) : roundHalfEven q ≤ n := by
  have h1 : ⌊q⌋ ≤ n := by
    have := Int.floor_le_floor h
    rwa [Int.floor_intCast] at this
  have hfl : (⌊q⌋ : ℚ) ≤ q := Int.floor_le q
  unfold roundHalfEven
  split_ifs with h2 h3 h4
  · exact h1
  · have hlt : (⌊q⌋ : ℚ) < (n : ℚ) := by linarith
    have : ⌊q⌋ < n := by exact_mod_cast hlt
    omega
  · exact h1
  · have heq : q - ⌊q⌋ = 1/2 := le_antisymm (not_lt.mp h3) (not_lt.mp h2)
    have hlt : (⌊q⌋ : ℚ) < (n : ℚ) := by linarith
    have : ⌊q⌋ < n := by exact_mod_cast hlt
    omega

theorem round2_nonneg {q : ℚ} (h : 0 ≤ q) : 0 ≤ round2 q := by
  have : (0 : ℤ) ≤ roundHalfEven (q * 100) := roundHalfEven_nonneg (by positivity)
  rw [round2]
  have : (0 : ℚ) ≤ (roundHalfEven (q * 100) : ℚ) := by exact_mod_cast this
  positivity

theorem round2_le_100 {q : ℚ} (h : q ≤ 100) : round2 q ≤ 100 := by
  have h1 : roundHalfEven (q * 100) ≤ (10000 : ℤ) := by
    apply roundHalfEven_le
    push_cast
    linarith
  have h2 : (roundHalfEven (q * 100) : ℚ) ≤ 10000 := by exact_mod_cast h1
  rw [round2, div_le_iff₀ (by norm_num)]
  linarith

theorem alookup_aupdate_self {α : Type} (k : String) (v : α) (xs : List (String × α)) :
    alookup k (aupdate k v xs) = some v := by
  induction xs with
  | nil => simp [alookup, aupdate]
  | cons p rest ih =>
    by_cases h : p.1 = k
    · simp [alookup, aupdate, h]
    · simp [alookup, aupdate, h, ih]

theorem alookup_aupdate_ne {α : Type} {k k' : String} (hne : k' ≠ k) (v : α)
    (xs : List (String × α)) : alookup k' (aupdate k v xs) = alookup k' xs := by
  have hkk : k ≠ k' := fun h => hne h.symm
  induction xs with
  | nil => simp [alookup, aupdate, hkk]
  | cons p rest ih =>
    obtain ⟨a, b⟩ := p
    by_cases h : a = k
    · subst h
      simp [alookup, aupdate, hkk]
    · simp [alookup, aupdate, h, ih]

theorem alookup_mem_keys {α : Type} {k : String} {xs : List (String × α)} {v : α}
    (h : alookup k xs = some v) : k ∈ xs.map Prod.fst := by
  induction xs with
  | nil => simp [alookup] at h
  | cons p rest ih =>
    rw [alookup] at h
    by_cases hk : p.1 = k
    · simp [hk]
    · simp only [hk, if_false] at h
      simp [ih h]

theorem qualify_lead_not_found {m : LeadManager} {lead_id : String}
    (h : alookup lead_id m.leads = none) : qualify_lead m lead_id = (m, 0) := by
  simp [qualify_lead, h]

theorem qualify_lead_found {m : LeadManager} {lead_id : String} {l : Lead}
    (h : alookup lead_id m.leads = some l) :
    qualify_lead m lead_id =
      ({ m with leads := aupdate lead_id (qualifiedLead m.scoring_criteria l) m.leads },
       (qualifiedLead m.scoring_criteria l).qualification_score) := by
  simp [qualify_lead, h]

theorem qualify_lead_criteria (m : LeadManager) (lead_id : String) :
    (qualify_lead m lead_id).1.scoring_criteria = m.scoring_criteria := by
  cases h : alookup lead_id m.leads with
  | none => rw [qualify_lead_not_found h]
  | some l => rw [qualify_lead_found h]

theorem qualify_lead_history (m : LeadManager) (lead_id : String) :
    (qualify_lead m lead_id).1.interaction_history = m.interaction_history := by
  cases h : alookup lead_id m.leads with
  | none => rw [qualify_lead_not_found h]
  | some l => rw [qualify_lead_found h]

theorem qualify_lead_lookup_self {m : LeadManager} {lead_id : String} {l : Lead}
    (h : alookup lead_id m.leads = some l) :
    alookup lead_id (qualify_lead m lead_id).1.leads =
      some (qualifiedLead m.scoring_criteria l) := by
  rw [qualify_lead_found h]
  exact alookup_aupdate_self _ _ _

theorem qualify_lead_lookup_ne {m : LeadManager} {lead_id k : String} (hne : k ≠ lead_id) :
    alookup k (qualify_lead m lead_id).1.leads = alookup k m.leads := by
  cases h : alookup lead_id m.leads with
  | none => rw [qualify_lead_not_found h]
  | some l =>
    rw [qualify_lead_found h]
    exact alookup_aupdate_ne hne _ _

theorem qualifiedLead_score (c : ScoringCriteria) (l : Lead) :
    (qualifiedLead c l).qualification_score = round2 (raw_score c l) := rfl

theorem qualifiedLead_status_of_not_new {c : ScoringCriteria} {l : Lead}
    (h : l.status ≠ StatusVal.enum LeadStatus.NEW) :
    (qualifiedLead c l).status = l.status := by
  simp [qualifiedLead, h]

theorem qualifiedLead_status_of_new {c : ScoringCriteria} {l : Lead}
    (h : l.status = StatusVal.enum LeadStatus.NEW) :
    (qualifiedLead c l).status =
      (if round2 (raw_score c l) ≥ c.qualified_threshold then
        StatusVal.enum LeadStatus.QUALIFIED
      else StatusVal.enum LeadStatus.UNQUALIFIED) := by
  simp [qualifiedLead, h]

theorem score_company_size_bounds (cs : Option ℤ) :
    0 ≤ score_company_size cs ∧ score_company_size cs ≤ 100 := by
  unfold score_company_size
  split_ifs <;> norm_num

theorem budgetBand_bounds (b : ℤ) : 0 ≤ budgetBand b ∧ budgetBand b ≤ 100 := by
  unfold budgetBand
  split_ifs <;> norm_num

theorem score_budget_bounds (b r : Option ℤ) :
    0 ≤ score_budget b r ∧ score_budget b r ≤ 100 := by
  unfold score_budget
  split_ifs <;> first | exact budgetBand_bounds _ | norm_num

theorem score_authority_bounds (dm : Bool) (t : Option String) :
    0 ≤ score_authority dm t ∧ score_authority dm t ≤ 100 := by
  unfold score_authority
  split_ifs <;> norm_num

theorem score_need_bounds (pp : List String) :
    0 ≤ score_need pp ∧ score_need pp ≤ 100 := by
  unfold score_need
  split_ifs with h
  · norm_num
  · constructor
    · have h1 : (0 : ℚ) ≤ min ((pp.length : ℚ) * 25) 100 := le_min (by positivity) (by norm_num)
      have h2 : (0 : ℚ) ≤ min ((keyword_match_count pp : ℚ) * 10) 30 :=
        le_min (by positivity) (by norm_num)
      exact le_min (by linarith) (by norm_num)
    · exact min_le_right _ _

theorem score_timeline_bounds (t : Option String) :
    0 ≤ score_timeline t ∧ score_timeline t ≤ 100 := by
  unfold score_timeline
  split_ifs <;> norm_num

theorem raw_score_bounds (c : ScoringCriteria) (l : Lead)
    (h1 : 0 ≤ c.company_size_weight) (h2 : 0 ≤ c.budget_weight)
    (h3 : 0 ≤ c.authority_weight) (h4 : 0 ≤ c.need_weight) (h5 : 0 ≤ c.timeline_weight)
    (hsum : c.company_size_weight + c.budget_weight + c.authority_weight +
            c.need_weight + c.timeline_weight ≤ 1) :
    0 ≤ raw_score c l ∧ raw_score c l ≤ 100 := by
  obtain ⟨a1, b1⟩ := score_company_size_bounds l.company_size
  obtain ⟨a2, b2⟩ := score_budget_bounds l.budget l.annual_revenue
  obtain ⟨a3, b3⟩ := score_authority_bounds l.decision_maker l.title
  obtain ⟨a4, b4⟩ := score_need_bounds l.pain_points
  obtain ⟨a5, b5⟩ := score_timeline_bounds l.timeline
  unfold raw_score
  constructor
  · have n1 := mul_nonneg a1 h1
    have n2 := mul_nonneg a2 h2
    have n3 := mul_nonneg a3 h3
    have n4 := mul_nonneg a4 h4
    have n5 := mul_nonneg a5 h5
    linarith
  · have u1 := mul_le_mul_of_nonneg_right b1 h1
    have u2 := mul_le_mul_of_nonneg_right b2 h2
    have u3 := mul_le_mul_of_nonneg_right b3 h3
    have u4 := mul_le_mul_of_nonneg_right b4 h4
    have u5 := mul_le_mul_of_nonneg_right b5 h5
    linarith

theorem filter_snd_comm (p : Lead → Bool) (xs : List (String × Lead)) :
    (xs.filter (fun q => p q.2)).map Prod.snd = (xs.map Prod.snd).filter p := by
  induction xs with
  | nil => simp
  | cons x rest ih =>
    by_cases h : p x.2
    · simp [List.filter_cons, h, ih]
    · simp [List.filter_cons, h, ih]

/-- C2 counterexample: with installed thresholds 50/55 and a stored lead of
score 59, describing `get_qualified_leads` / `get_hot_leads`
as filtering on the installed criteria thresholds fails — the lead clears
both installed thresholds yet neither view returns it. -/
theorem get_views_ignore_installed_thresholds :
    ¬(get_qualified_leads managerC2 =
        (managerC2.leads.map Prod.snd).filter
          (fun l => decide (l.qualification_score ≥
            managerC2.scoring_criteria.qualified_threshold)) ∧
      get_hot_leads managerC2 =
        (managerC2.leads.map Prod.snd).filter
          (fun l => decide (l.qualification_score ≥
            managerC2.scoring_criteria.hot_lead_threshold))) := by
  decide

/-- C2 amended: `get_qualified_leads` returns exactly the stored leads with
qualification score ≥ 70.0 and `get_hot_leads` exactly those with score
≥ 85.0 — the fixed constants of `Lead.is_qualified` / `Lead.is_hot_lead` —
each in insertion order, independently of the installed criteria. -/
theorem get_views_filter_on_fixed_thresholds (m : LeadManager) :
    get_qualified_leads m =
      (m.leads.map Prod.snd).filter (fun l => decide (l.qualification_score ≥ 70)) ∧
    get_hot_leads m =
      (m.leads.map Prod.snd).filter (fun l => decide (l.qualification_score ≥ 85)) := by
  constructor
  · rw [get_qualified_leads, filter_snd_comm]
    exact rfl
  · rw [get_hot_leads, filter_snd_comm]
    exact rfl

/-- C5 counterexample: Python truthiness sends `company_size = 0` to the
"unknown" branch worth 50, while `company_size = 1` scores 25, so the
company-size sub-score is not monotone over all sizes ≥ 0. -/
theorem score_company_size_not_monotone_at_zero :
    (0 : ℤ) ≤ 1 ∧ ¬(score_company_size (some 0) ≤ score_company_size (some 1)) := by
  decide

theorem budgetBand_mono {b1 b2 : ℤ} (h : b1 ≤ b2) : budgetBand b1 ≤ budgetBand b2 := by
  unfold budgetBand
  split_ifs <;> first | (exfalso; omega) | norm_num

/-- C5 amended: for strictly positive values (where Python truthiness does not
reroute to the unknown/fallback branch) the company-size sub-score is monotone
in the company size, and the budget sub-score is monotone in the budget for
any fixed annual revenue. -/
theorem sub_scores_monotone_on_positives :
    (∀ s1 s2 : ℤ, 1 ≤ s1 → s1 ≤ s2 →
      score_company_size (some s1) ≤ score_company_size (some s2)) ∧
    (∀ b1 b2 : ℤ, ∀ rev : Option ℤ, 1 ≤ b1 → b1 ≤ b2 →
      score_budget (some b1) rev ≤ score_budget (some b2) rev) := by
  constructor
  · intro s1 s2 h1 h12
    have t1 : optIntTruthy (some s1) = true := by
      simp only [optIntTruthy, decide_eq_true_eq]
      omega
    have t2 : optIntTruthy (some s2) = true := by
      simp only [optIntTruthy, decide_eq_true_eq]
      omega
    simp only [score_company_size, t1, t2, Bool.not_true, Bool.false_eq_true, if_false,
      Option.getD_some]
    split_ifs <;> first | (exfalso; omega) | norm_num
  · intro b1 b2 rev h1 h12
    have t1 : optIntTruthy (some b1) = true := by
      simp only [optIntTruthy, decide_eq_true_eq]
      omega
    have t2 : optIntTruthy (some b2) = true := by
      simp only [optIntTruthy, decide_eq_true_eq]
      omega
    simp only [score_budget, t1, t2, Bool.not_true, Bool.false_eq_true, if_false,
      Option.getD_some]
    exact budgetBand_mono h12

/-- C5 witness: the amended monotonicity at sizes 100 ≤ 1200 and budgets
10000 ≤ 60000. -/
theorem sub_scores_monotone_on_positives_witness :
    score_company_size (some 100) ≤ score_company_size (some 1200) ∧
    score_budget (some 10000) none ≤ score_budget (some 60000) none :=
  ⟨sub_scores_monotone_on_positives.1 100 1200 (by norm_num) (by norm_num),
   sub_scores_monotone_on_positives.2 10000 60000 none (by norm_num) (by norm_num)⟩

theorem validate_weights_of_sum_eq_one {c : ScoringCriteria}
    (h : c.company_size_weight + c.budget_weight + c.authority_weight +
         c.need_weight + c.timeline_weight = 1) : validate_weights c = true := by
  rw [validate_weights, h]
  norm_num

theorem validate_weights_badCriteria : validate_weights badCriteria = false := by
  rw [validate_weights]
  rw [show badCriteria.company_size_weight + badCriteria.budget_weight +
        badCriteria.authority_weight + badCriteria.need_weight +
        badCriteria.timeline_weight - 1 = -(1/10) from by norm_num [badCriteria]]
  rw [abs_neg, abs_of_pos (show (0 : ℚ) < 1/10 from by norm_num)]
  simp only [decide_eq_false_iff_not, not_lt]
  norm_num

theorem foldl_qualify_criteria (ks : List String) :
    ∀ m : LeadManager,
      (ks.foldl (fun acc k => (qualify_lead acc k).1) m).scoring_criteria =
        m.scoring_criteria := by
  induction ks with
  | nil => intro m; rfl
  | cons k0 rest ih =>
    intro m
    rw [List.foldl_cons, ih, qualify_lead_criteria]

theorem foldl_qualify_not_mem (ks : List String) :
    ∀ m : LeadManager, ∀ k : String, k ∉ ks →
      alookup k (ks.foldl (fun acc k => (qualify_lead acc k).1) m).leads =
        alookup k m.leads := by
  induction ks with
  | nil => intro m k _; rfl
  | cons k0 rest ih =>
    intro m k hk
    rw [List.foldl_cons, ih _ _ (fun h => hk (List.mem_cons_of_mem _ h)),
      qualify_lead_lookup_ne (fun h => hk (by rw [h]; exact List.mem_cons_self _ _))]

theorem foldl_qualify_requalifies (ks : List String) :
    ∀ m : LeadManager, ks.Nodup →
      ∀ k l, k ∈ ks → alookup k m.leads = some l →
        alookup k (ks.foldl (fun acc k => (qualify_lead acc k).1) m).leads =
          some (qualifiedLead m.scoring_criteria l) := by
  induction ks with
  | nil => intro m _ k l hk; exact absurd hk (List.not_mem_nil k)
  | cons k0 rest ih =>
    intro m hnodup k l hk hl
    have h0 : k0 ∉ rest := (List.nodup_cons.mp hnodup).1
    have hrest : rest.Nodup := (List.nodup_cons.mp hnodup).2
    rw [List.foldl_cons]
    rcases List.mem_cons.mp hk with heq | hmem
    · subst heq
      rw [foldl_qualify_not_mem rest _ k h0, qualify_lead_lookup_self hl]
    · have hne : k ≠ k0 := fun h => h0 (h ▸ hmem)
      have hl1 : alookup k (qualify_lead m k0).1.leads = some l := by
        rw [qualify_lead_lookup_ne hne, hl]
      rw [ih _ hrest k l hmem hl1, qualify_lead_criteria]

/-- C4: `update_scoring_criteria` rejects a criteria whose weights fail
`validate_weights`, returning `false` with the whole state (installed criteria,
the score and status of every lead) unchanged; with valid weights it returns `true`,
installs the new criteria, and re-qualifies every stored lead under them. -/
theorem update_scoring_criteria_spec (m : LeadManager) (nc : ScoringCriteria) :
    (validate_weights nc = false → update_scoring_criteria m nc = (m, false)) ∧
    (validate_weights nc = true →
      (update_scoring_criteria m nc).2 = true ∧
      (update_scoring_criteria m nc).1.scoring_criteria = nc ∧
      ((m.leads.map Prod.fst).Nodup →
        ∀ k l, alookup k m.leads = some l →
          alookup k (update_scoring_criteria m nc).1.leads =
            some (qualifiedLead nc l))) := by
  constructor
  · intro h
    simp [update_scoring_criteria, h]
  · intro h
    simp only [update_scoring_criteria, h, Bool.not_true, Bool.false_eq_true, if_false]
    refine ⟨trivial, ?_, ?_⟩
    · rw [foldl_qualify_criteria]
    · intro hnodup k l hl
      exact foldl_qualify_requalifies (m.leads.map Prod.fst)
        { m with scoring_criteria := nc } hnodup k l (alookup_mem_keys hl) hl

/-- C4 witness: concrete rejection (weights summing to 0.9 leave the repository
untouched) and concrete acceptance (valid weights re-qualify the stored lead). -/
theorem update_scoring_criteria_spec_witness :
    update_scoring_criteria exampleManager1 badCriteria = (exampleManager1, false) ∧
    alookup "L1" (update_scoring_criteria exampleManager1 criteriaLowThresholds).1.leads =
      some (qualifiedLead criteriaLowThresholds exampleLead1) :=
  ⟨(update_scoring_criteria_spec exampleManager1 badCriteria).1
      validate_weights_badCriteria,
   (((update_scoring_criteria_spec exampleManager1 criteriaLowThresholds).2
      (validate_weights_of_sum_eq_one (by norm_num [criteriaLowThresholds]))).2.2
      (by simp [exampleManager1])) "L1" exampleLead1 (by simp [exampleManager1, alookup])⟩

/-- C6 amended: whenever the installed weights are nonnegative and sum to at
most 1 (in particular: exactly 1), the score computed and returned by
`qualify_lead` lies in [0, 100]. -/
theorem qualify_lead_score_in_range (m : LeadManager) (lead_id : String)
    (h1 : 0 ≤ m.scoring_criteria.company_size_weight)
    (h2 : 0 ≤ m.scoring_criteria.budget_weight)
    (h3 : 0 ≤ m.scoring_criteria.authority_weight)
    (h4 : 0 ≤ m.scoring_criteria.need_weight)
    (h5 : 0 ≤ m.scoring_criteria.timeline_weight)
    (hsum : m.scoring_criteria.company_size_weight + m.scoring_criteria.budget_weight +
            m.scoring_criteria.authority_weight + m.scoring_criteria.need_weight +
            m.scoring_criteria.timeline_weight ≤ 1) :
    0 ≤ (qualify_lead m lead_id).2 ∧ (qualify_lead m lead_id).2 ≤ 100 := by
  cases h : alookup lead_id m.leads with
  | none =>
    rw [qualify_lead_not_found h]
    norm_num
  | some l =>
    rw [qualify_lead_found h]
    obtain ⟨ha, hb⟩ := raw_score_bounds m.scoring_criteria l h1 h2 h3 h4 h5 hsum
    exact ⟨round2_nonneg ha, round2_le_100 hb⟩

/-- C6 witness: the range theorem applied to the Example 1 repository, whose
default weights are nonnegative and sum to exactly 1. -/
theorem qualify_lead_score_in_range_witness :
    0 ≤ (qualify_lead exampleManager1 "L1").2 ∧
    (qualify_lead exampleManager1 "L1").2 ≤ 100 :=
  qualify_lead_score_in_range exampleManager1 "L1"
    (by norm_num [exampleManager1, defaultCriteria])
    (by norm_num [exampleManager1, defaultCriteria])
    (by norm_num [exampleManager1, defaultCriteria])
    (by norm_num [exampleManager1, defaultCriteria])
    (by norm_num [exampleManager1, defaultCriteria])
    (by norm_num [exampleManager1, defaultCriteria])

theorem raw_score_overflow : raw_score negCriteria leadOverflow = 180 := by
  have hcs : score_company_size (some 2000) = 100 := by decide
  have hb : score_budget (some 5000) none = 20 := by decide
  have ha : score_authority false none = 40 := by decide
  have hn : score_need [] = 30 := by decide
  have ht : score_timeline none = 40 := by decide
  rw [raw_score]
  simp only [leadOverflow, negCriteria]
  rw [hcs, hb, ha, hn, ht]
  norm_num

/-- C6 counterexample: `validate_weights` only checks the sum, so the weight
vector (2, -1, 0, 0, 0) passes, and `qualify_lead` then computes the score
180, outside [0, 100]. -/
theorem qualify_lead_score_exceeds_100 :
    validate_weights negCriteria = true ∧
    (qualify_lead managerC6 "L3").2 = 180 ∧
    ¬((qualify_lead managerC6 "L3").2 ≤ 100) := by
  have hfind : alookup "L3" managerC6.leads = some leadOverflow := by
    simp [managerC6, alookup]
  have hsc : (qualify_lead managerC6 "L3").2 = 180 := by
    rw [qualify_lead_found hfind]
    show (qualifiedLead managerC6.scoring_criteria leadOverflow).qualification_score = 180
    rw [qualifiedLead_score]
    show round2 (raw_score negCriteria leadOverflow) = 180
    rw [raw_score_overflow, round2_of_mul_eq (n := 18000) (by norm_num)]
    norm_num
  refine ⟨validate_weights_of_sum_eq_one (by norm_num [negCriteria]), hsc, ?_⟩
  rw [hsc]
  norm_num

theorem raw_score_example1 : raw_score defaultCriteria exampleLead1 = 95.5 := by
  have hk : keyword_match_count ["manual processes", "cost optimization"] = 2 := by decide
  have hneed : score_need ["manual processes", "cost optimization"] = 70 := by
    rw [score_need, if_neg (by decide), hk]
    norm_num
  have hcs : score_company_size (some 1200) = 100 := by decide
  have hb : score_budget (some 120000) none = 100 := by decide
  have ha : score_authority true none = 100 := by decide
  have ht : score_timeline (some "immediate") = 100 := by decide
  rw [raw_score]
  simp only [exampleLead1, defaultCriteria]
  rw [hcs, hb, ha, ht, hneed]
  norm_num

theorem round2_example1 : round2 (raw_score defaultCriteria exampleLead1) = 95.5 := by
  rw [raw_score_example1, round2_of_mul_eq (n := 9550) (by norm_num)]
  norm_num

/-- C1: on the Example 1 lead (decision maker, budget 120000, company size 1200,
two high-value pain points, immediate timeline, status NEW) under the default
criteria, `qualify_lead` returns exactly 95.5, stores 95.5 as the
qualification score, transitions the status to QUALIFIED, and the stored lead
counts as a hot lead (score ≥ 85). -/
theorem qualify_lead_example1_score_and_status :
    (qualify_lead exampleManager1 "L1").2 = 95.5 ∧
    alookup "L1" (qualify_lead exampleManager1 "L1").1.leads =
      some (qualifiedLead defaultCriteria exampleLead1) ∧
    (qualifiedLead defaultCriteria exampleLead1).qualification_score = 95.5 ∧
    (qualifiedLead defaultCriteria exampleLead1).status =
      StatusVal.enum LeadStatus.QUALIFIED ∧
    is_hot_lead (qualifiedLead defaultCriteria exampleLead1) = true := by
  have hfind : alookup "L1" exampleManager1.leads = some exampleLead1 := by
    simp [exampleManager1, alookup]
  have hcrit : exampleManager1.scoring_criteria = defaultCriteria := rfl
  refine ⟨?_, ?_, ?_, ?_, ?_⟩
  · rw [qualify_lead_found hfind]
    rw [hcrit, qualifiedLead_score, round2_example1]
  · rw [qualify_lead_lookup_self hfind, hcrit]
  · rw [qualifiedLead_score, round2_example1]
  · rw [qualifiedLead_status_of_new rfl, round2_example1]
    rw [if_pos (by norm_num [defaultCriteria])]
  · rw [is_hot_lead, qualifiedLead_score, round2_example1]
    norm_num

/-- C7: `qualify_lead` writes only the (2-decimal rounded) qualification score
and possibly the status of the targeted lead — every other field, every other
lead, the criteria and the interaction log are unchanged — and it changes the
status only from NEW (to QUALIFIED iff the rounded score reaches
`qualified_threshold`, else to UNQUALIFIED). -/
theorem qualify_lead_writes_only_score_and_status (m : LeadManager) (lead_id : String)
    (l : Lead) (h : alookup lead_id m.leads = some l) :
    alookup lead_id (qualify_lead m lead_id).1.leads =
      some (qualifiedLead m.scoring_criteria l) ∧
    (qualifiedLead m.scoring_criteria l).qualification_score =
      round2 (raw_score m.scoring_criteria l) ∧
    (qualifiedLead m.scoring_criteria l).first_name = l.first_name ∧
    (qualifiedLead m.scoring_criteria l).last_name = l.last_name ∧
    (qualifiedLead m.scoring_criteria l).email = l.email ∧
    (qualifiedLead m.scoring_criteria l).company = l.company ∧
    (qualifiedLead m.scoring_criteria l).phone = l.phone ∧
    (qualifiedLead m.scoring_criteria l).title = l.title ∧
    (qualifiedLead m.scoring_criteria l).lead_source = l.lead_source ∧
    (qualifiedLead m.scoring_criteria l).created_at = l.created_at ∧
    (qualifiedLead m.scoring_criteria l).updated_at = l.updated_at ∧
    (qualifiedLead m.scoring_criteria l).company_size = l.company_size ∧
    (qualifiedLead m.scoring_criteria l).annual_revenue = l.annual_revenue ∧
    (qualifiedLead m.scoring_criteria l).budget = l.budget ∧
    (qualifiedLead m.scoring_criteria l).decision_maker = l.decision_maker ∧
    (qualifiedLead m.scoring_criteria l).pain_points = l.pain_points ∧
    (qualifiedLead m.scoring_criteria l).timeline = l.timeline ∧
    (qualifiedLead m.scoring_criteria l).notes = l.notes ∧
    (qualifiedLead m.scoring_criteria l).tags = l.tags ∧
    (qualifiedLead m.scoring_criteria l).id = l.id ∧
    (qualifiedLead m.scoring_criteria l).last_contacted = l.last_contacted ∧
    (qualifiedLead m.scoring_criteria l).next_follow_up = l.next_follow_up ∧
    (l.status ≠ StatusVal.enum LeadStatus.NEW →
      (qualifiedLead m.scoring_criteria l).status = l.status) ∧
    (l.status = StatusVal.enum LeadStatus.NEW →
      (qualifiedLead m.scoring_criteria l).status =
        (if round2 (raw_score m.scoring_criteria l) ≥ m.scoring_criteria.qualified_threshold
         then StatusVal.enum LeadStatus.QUALIFIED
         else StatusVal.enum LeadStatus.UNQUALIFIED)) ∧
    (∀ k, k ≠ lead_id →
      alookup k (qualify_lead m lead_id).1.leads = alookup k m.leads) ∧
    (qualify_lead m lead_id).1.scoring_criteria = m.scoring_criteria ∧
    (qualify_lead m lead_id).1.interaction_history = m.interaction_history := by
  refine ⟨qualify_lead_lookup_self h, rfl, rfl, rfl, rfl, rfl, rfl, rfl, rfl, rfl, rfl,
    rfl, rfl, rfl, rfl, rfl, rfl, rfl, rfl, rfl, rfl, rfl,
    fun hne => qualifiedLead_status_of_not_new hne,
    fun hnew => qualifiedLead_status_of_new hnew,
    fun k hk => qualify_lead_lookup_ne hk,
    qualify_lead_criteria m lead_id,
    qualify_lead_history m lead_id⟩

/-- C7 witness: the frame theorem applied to the Example 1 repository. -/
theorem qualify_lead_writes_only_score_and_status_witness :
    alookup "L1" (qualify_lead exampleManager1 "L1").1.leads =
      some (qualifiedLead exampleManager1.scoring_criteria exampleLead1) ∧
    (qualifiedLead exampleManager1.scoring_criteria exampleLead1).email =
      exampleLead1.email := by
  obtain ⟨h1, _, _, _, hemail, _⟩ :=
    qualify_lead_writes_only_score_and_status exampleManager1 "L1" exampleLead1
      (by simp [exampleManager1, alookup])
  exact ⟨h1, hemail⟩

/-- C9: on a stored lead, `update_lead` with only the `notes` key succeeds
without touching the qualification score, while `update_lead` with the
`budget` key re-scores: the stored lead becomes the qualified version of the
updated record, its score recomputed by the §4.1 scoring function from the
updated field values. -/
theorem update_lead_notes_vs_budget (m : LeadManager) (lead_id : String) (l : Lead)
    (now : String) (h : alookup lead_id m.leads = some l) :
    (∀ v : String,
      (update_lead m lead_id [FieldUpdate.notes v] now).2 = true ∧
      alookup lead_id (update_lead m lead_id [FieldUpdate.notes v] now).1.leads =
        some { l with notes := v, updated_at := TimeVal.str now } ∧
      ({ l with notes := v, updated_at := TimeVal.str now } : Lead).qualification_score =
        l.qualification_score) ∧
    (∀ b : Option ℤ,
      (update_lead m lead_id [FieldUpdate.budget b] now).2 = true ∧
      alookup lead_id (update_lead m lead_id [FieldUpdate.budget b] now).1.leads =
        some (qualifiedLead m.scoring_criteria
          { l with budget := b, updated_at := TimeVal.str now }) ∧
      (qualifiedLead m.scoring_criteria
          { l with budget := b, updated_at := TimeVal.str now }).qualification_score =
        round2 (raw_score m.scoring_criteria
          { l with budget := b, updated_at := TimeVal.str now })) := by
  constructor
  · intro v
    have hTQ : updatesTouchQualification [FieldUpdate.notes v] = false := rfl
    simp only [update_lead, h, List.foldl, applyUpdate, hTQ, Bool.false_eq_true, if_false]
    exact ⟨trivial, alookup_aupdate_self _ _ _, trivial⟩
  · intro b
    have hTQ : updatesTouchQualification [FieldUpdate.budget b] = true := rfl
    simp only [update_lead, h, List.foldl, applyUpdate, hTQ, if_true]
    refine ⟨trivial, ?_, qualifiedLead_score _ _⟩
    have hl1 : alookup lead_id
        (aupdate lead_id ({ l with budget := b, updated_at := TimeVal.str now }) m.leads) =
        some { l with budget := b, updated_at := TimeVal.str now } :=
      alookup_aupdate_self _ _ _
    exact qualify_lead_lookup_self hl1

/-- C9 witness: the notes/budget update dichotomy on the Example 1 repository. -/
theorem update_lead_notes_vs_budget_witness :
    ({ exampleLead1 with notes := "call back", updated_at := TimeVal.str "T1" } :
        Lead).qualification_score = exampleLead1.qualification_score ∧
    alookup "L1" (update_lead exampleManager1 "L1"
        [FieldUpdate.budget (some 5000)] "T1").1.leads =
      some (qualifiedLead exampleManager1.scoring_criteria
        { exampleLead1 with budget := some 5000, updated_at := TimeVal.str "T1" }) := by
  obtain ⟨hnotes, hbudget⟩ :=
    update_lead_notes_vs_budget exampleManager1 "L1" exampleLead1 "T1"
      (by simp [exampleManager1, alookup])
  exact ⟨(hnotes "call back").2.2, (hbudget (some 5000)).2.1⟩

/-- C8 amended: adding a valid lead whose email matches a stored email
case-insensitively fails with a `ValueError` (the same exception class the
source uses for validation failures, distinguishable only by its message) and
returns the repository unchanged: no lead added, no interaction log created,
no existing lead modified. -/
theorem add_lead_duplicate_email_rejected (m : LeadManager) (lead : Lead)
    (gen_id now : String)
    (hfn : lead.first_name ≠ "") (hln : lead.last_name ≠ "")
    (hem : lead.email ≠ "") (hco : lead.company ≠ "")
    (hdup : ∃ l0 ∈ m.leads.map Prod.snd, strLower l0.email = strLower lead.email) :
    add_lead m lead gen_id now =
      (m, .error
        { cls := "ValueError",
          msg := "Lead with email " ++ lead.email ++ " already exists" }) := by
  have hfind : (find_lead_by_email m lead.email).isSome = true := by
    rw [find_lead_by_email, List.find?_isSome]
    obtain ⟨l0, hl0, he⟩ := hdup
    exact ⟨l0, hl0, by simp [he]⟩
  have hv : (strTruthy lead.first_name && strTruthy lead.last_name &&
             strTruthy lead.email && strTruthy lead.company) = true := by
    simp [strTruthy, hfn, hln, hem, hco]
  by_cases hid : lead.id = ""
  · simp only [add_lead, if_pos hid]
    rw [if_neg (by simp [hv]), if_pos (by simpa using hfind)]
  · simp only [add_lead, if_neg hid]
    rw [if_neg (by simp [hv]), if_pos (by simpa using hfind)]

/-- C8 witness: the case-differing duplicate `ANN.BA@ZETA.ORG` against stored
`ann.ba@zeta.org` is rejected with the ValueError and an unchanged repository. -/
theorem add_lead_duplicate_email_rejected_witness :
    add_lead managerC8 dupCaseLead "G5" "T5" =
      (managerC8, .error
        { cls := "ValueError",
          msg := "Lead with email " ++ dupCaseLead.email ++ " already exists" }) :=
  add_lead_duplicate_email_rejected managerC8 dupCaseLead "G5" "T5"
    (by decide) (by decide) (by decide) (by decide)
    ⟨dupBaseLead, by decide, by decide⟩

/-- C8 counterexample: the duplicate-email failure carries the same Python
exception class (`ValueError`) as the missing-required-fields validation
failure, so there is no distinct `DuplicateError` kind. -/
theorem add_lead_duplicate_error_class_matches_validation :
    ∃ e1 e2 : PyError,
      (add_lead managerC8 dupCaseLead "G5" "T5").2 = Except.error e1 ∧
      (add_lead emptyManager blankLead "G6" "T6").2 = Except.error e2 ∧
      e1.cls = e2.cls :=
  ⟨{ cls := "ValueError", msg := "Lead with email ANN.BA@ZETA.ORG already exists" },
   { cls := "ValueError", msg := "Lead must have first_name, last_name, email, and company" },
   rfl, rfl, rfl⟩

theorem raw_score_leadP : raw_score defaultCriteria leadP = 38 := by
  have hcs : score_company_size none = 50 := by decide
  have hb : score_budget none none = 30 := by decide
  have ha : score_authority false none = 40 := by decide
  have hn : score_need [] = 30 := by decide
  have ht : score_timeline none = 40 := by decide
  rw [raw_score]
  simp only [leadP, simpleLead, defaultCriteria]
  rw [hcs, hb, ha, hn, ht]
  norm_num

theorem round2_leadP : round2 (raw_score defaultCriteria leadP) = 38 := by
  rw [raw_score_leadP, round2_of_mul_eq (n := 3800) (by norm_num)]
  norm_num

theorem qualifiedLead_leadP : qualifiedLead defaultCriteria leadP = storedLead7 := by
  have h1 : leadP.status = StatusVal.enum LeadStatus.NEW := rfl
  rw [qualifiedLead, round2_leadP, if_pos h1, if_neg (by norm_num [defaultCriteria])]
  decide

theorem add_lead_simpleLead_eval :
    add_lead emptyManager simpleLead "G7" "2025-01-01 00:00:00" = (managerC3, Except.ok "L7") := by
  have hstep : add_lead emptyManager simpleLead "G7" "2025-01-01 00:00:00" =
      ((qualify_lead m1C3 "L7").1, Except.ok "L7") := rfl
  rw [hstep]
  have hfind1 : alookup "L7" m1C3.leads = some leadP := by simp [m1C3, alookup]
  rw [qualify_lead_found hfind1]
  rw [show m1C3.scoring_criteria = defaultCriteria from rfl, qualifiedLead_leadP]
  simp [m1C3, managerC3, aupdate]

/-- C3 (code-bug evaluation): after a lead is added through `add_lead` (its
`created_at` stays `None` and `updated_at` holds a `str`), `export_leads_json`
does not produce the §6 document — it raises `AttributeError` calling
`.isoformat()` on `created_at`. -/
theorem export_leads_json_fails_after_add_lead :
    add_lead emptyManager simpleLead "G7" "2025-01-01 00:00:00" = (managerC3, Except.ok "L7") ∧
    export_leads_json managerC3 "2025-01-02T00:00:00" =
      .error { cls := "AttributeError",
               msg := "NoneType object has no attribute isoformat" } := by
  refine ⟨add_lead_simpleLead_eval, ?_⟩
  simp [export_leads_json, exportEntries, exportLead, managerC3, storedLead7, simpleLead,
        sourceValue, statusValue, sourceString, statusString, isoformat]

theorem qualifiedLead_rawStringTyped {c : ScoringCriteria} {l : Lead}
    (h : rawStringTyped l) : rawStringTyped (qualifiedLead c l) := by
  obtain ⟨⟨s, hs⟩, ⟨t, ht⟩⟩ := h
  refine ⟨⟨s, ?_⟩, ⟨t, ?_⟩⟩
  · rw [qualifiedLead_status_of_not_new (by rw [hs]; simp), hs]
  · rw [show (qualifiedLead c l).lead_source = l.lead_source from rfl, ht]

theorem createLeadFromData_fields {d : RawLeadData} {g : String} {l : Lead}
    (h : createLeadFromData d g = Except.ok l) :
    l.status = StatusVal.str (d.status.getD "new") ∧
    l.lead_source = SourceVal.str (d.lead_source.getD "other") := by
  rw [createLeadFromData] at h
  cases hA : parseLeadSource (d.lead_source.getD "other") with
  | error e => rw [hA] at h; simp at h
  | ok vA =>
    rw [hA] at h
    cases hB : parseLeadStatus (d.status.getD "new") with
    | error e => rw [hB] at h; simp at h
    | ok vB =>
      rw [hB] at h
      cases hC : keyGet d.first_name "first_name" with
      | error e => rw [hC] at h; simp at h
      | ok vC =>
        rw [hC] at h
        cases hD : keyGet d.last_name "last_name" with
        | error e => rw [hD] at h; simp at h
        | ok vD =>
          rw [hD] at h
          cases hE : keyGet d.email "email" with
          | error e => rw [hE] at h; simp at h
          | ok vE =>
            rw [hE] at h
            cases hF : keyGet d.company "company" with
            | error e => rw [hF] at h; simp at h
            | ok vF =>
              rw [hF] at h
              cases h
              exact ⟨rfl, rfl⟩

theorem add_lead_shape (m : LeadManager) (lead : Lead) (gid now : String) :
    ((add_lead m lead gid now).1 = m ∧
      ∃ e, (add_lead m lead gid now).2 = Except.error e) ∨
    (∃ la : Lead,
      la.status = lead.status ∧ la.lead_source = lead.lead_source ∧
      (add_lead m lead gid now).2 = Except.ok la.id ∧
      (add_lead m lead gid now).1 =
        (qualify_lead
          { m with leads := aupdate la.id la m.leads,
                   interaction_history := aupdate la.id [] m.interaction_history }
          la.id).1) := by
  by_cases hid : lead.id = ""
  · simp only [add_lead, if_pos hid]
    split_ifs with hval hdup
    · exact Or.inl ⟨rfl, _, rfl⟩
    · exact Or.inl ⟨rfl, _, rfl⟩
    · exact Or.inr ⟨{ lead with id := gid, updated_at := TimeVal.str now },
        rfl, rfl, rfl, rfl⟩
  · simp only [add_lead, if_neg hid]
    split_ifs with hval hdup
    · exact Or.inl ⟨rfl, _, rfl⟩
    · exact Or.inl ⟨rfl, _, rfl⟩
    · exact Or.inr ⟨{ lead with updated_at := TimeVal.str now }, rfl, rfl, rfl, rfl⟩

theorem add_lead_keeps_rawStringTyped (m : LeadManager) (lead : Lead) (gid now : String)
    (hlead : rawStringTyped lead) :
    (∀ k l, alookup k m.leads = some l → rawStringTyped l →
      ∃ l2, alookup k (add_lead m lead gid now).1.leads = some l2 ∧ rawStringTyped l2) ∧
    (∀ lid, (add_lead m lead gid now).2 = Except.ok lid →
      ∃ l2, alookup lid (add_lead m lead gid now).1.leads = some l2 ∧ rawStringTyped l2) := by
  rcases add_lead_shape m lead gid now with ⟨heq, e, herr⟩ | ⟨la, hst, hsrc, hok, heq⟩
  · constructor
    · intro k l hk hP
      rw [heq]
      exact ⟨l, hk, hP⟩
    · intro lid hok
      rw [herr] at hok
      cases hok
  · have hla : rawStringTyped la := by
      obtain ⟨⟨s, hs⟩, ⟨t, ht⟩⟩ := hlead
      exact ⟨⟨s, by rw [hst, hs]⟩, ⟨t, by rw [hsrc, ht]⟩⟩
    have hkey :
        ∃ l2, alookup la.id (add_lead m lead gid now).1.leads = some l2 ∧
          rawStringTyped l2 := by
      rw [heq]
      rw [qualify_lead_lookup_self
        (m := { m with
                leads := aupdate la.id la m.leads,
                interaction_history := aupdate la.id [] m.interaction_history })
        (alookup_aupdate_self _ _ _)]
      exact ⟨_, rfl, qualifiedLead_rawStringTyped hla⟩
    constructor
    · intro k l hk hP
      by_cases hkla : k = la.id
      · subst hkla
        exact hkey
      · rw [heq, qualify_lead_lookup_ne hkla]
        show ∃ l2, alookup k (aupdate la.id la m.leads) = some l2 ∧ rawStringTyped l2
        rw [alookup_aupdate_ne hkla]
        exact ⟨l, hk, hP⟩
    · intro lid hok2
      rw [hok] at hok2
      cases hok2
      exact hkey

theorem createLeadsLoop_rawStringTyped (gen nowf : ℕ → String) (ds : List RawLeadData) :
    ∀ (m : LeadManager) (i : ℕ) (lid : String),
      (lid ∈ (createLeadsLoop gen nowf m ds i).2 ∨
        (∃ l, alookup lid m.leads = some l ∧ rawStringTyped l)) →
      ∃ l2, alookup lid (createLeadsLoop gen nowf m ds i).1.leads = some l2 ∧
        rawStringTyped l2 := by
  induction ds with
  | nil =>
    intro m i lid h
    rcases h with hmem | hP
    · simp [createLeadsLoop] at hmem
    · exact hP
  | cons d rest ih =>
    intro m i lid h
    rw [createLeadsLoop] at h ⊢
    cases hA : createLeadFromData d (gen i) with
    | error e =>
      rw [hA] at h
      dsimp only at h ⊢
      exact ih m (i + 1) lid h
    | ok lead =>
      rw [hA] at h
      dsimp only at h ⊢
      have hraw : rawStringTyped lead :=
        ⟨⟨_, (createLeadFromData_fields hA).1⟩, ⟨_, (createLeadFromData_fields hA).2⟩⟩
      obtain ⟨hS1, hS2⟩ := add_lead_keeps_rawStringTyped m lead (gen i) (nowf i) hraw
      cases hB : (add_lead m lead (gen i) (nowf i)).2 with
      | error e =>
        rw [hB] at h
        dsimp only at h ⊢
        refine ih _ (i + 1) lid ?_
        rcases h with hmem | ⟨l, hl, hP⟩
        · exact Or.inl hmem
        · exact Or.inr (hS1 lid l hl hP)
      | ok lid0 =>
        rw [hB] at h
        dsimp only at h ⊢
        rcases h with hmem | ⟨l, hl, hP⟩
        · rcases List.mem_cons.mp hmem with heq2 | hmem2
          · subst heq2
            exact ih _ (i + 1) lid (Or.inr (hS2 lid hB))
          · exact ih _ (i + 1) lid (Or.inl hmem2)
        · exact ih _ (i + 1) lid (Or.inr (hS1 lid l hl hP))

theorem str_status_not_in_by_status {m2 : LeadManager} {l : Lead} {s : String}
    (hs : l.status = StatusVal.str s) (st : LeadStatus) :
    l ∉ get_leads_by_status m2 st := by
  intro hmem
  rw [get_leads_by_status] at hmem
  obtain ⟨p, hpmem, hp2⟩ := List.mem_map.mp hmem
  have hfil := (List.mem_filter.mp hpmem).2
  rw [hp2, hs] at hfil
  simp [statusEqEnum] at hfil

/-- C10: every lead inserted through `create_lead_objects_from_data` is stored
with raw strings in `status` and `lead_source` (not enum members); hence the
NEW-status check of `qualify_lead` never fires on it (scoring never changes
its status under any criteria) and `get_leads_by_status` never returns it for
any `LeadStatus` argument. -/
theorem create_lead_objects_store_raw_strings (m : LeadManager)
    (ds : List RawLeadData) (gen nowf : ℕ → String) (lid : String)
    (hmem : lid ∈ (create_lead_objects_from_data m ds gen nowf).2) :
    ∃ l, alookup lid (create_lead_objects_from_data m ds gen nowf).1.leads = some l ∧
      (∃ s, l.status = StatusVal.str s) ∧
      (∃ t, l.lead_source = SourceVal.str t) ∧
      (∀ c : ScoringCriteria, (qualifiedLead c l).status = l.status) ∧
      (∀ st : LeadStatus,
        l ∉ get_leads_by_status (create_lead_objects_from_data m ds gen nowf).1 st) := by
  obtain ⟨l, hl, hP⟩ :=
    createLeadsLoop_rawStringTyped gen nowf ds m 0 lid (Or.inl hmem)
  obtain ⟨⟨s, hs⟩, ⟨t, ht⟩⟩ := hP
  refine ⟨l, hl, ⟨s, hs⟩, ⟨t, ht⟩, ?_, ?_⟩
  · intro c
    exact qualifiedLead_status_of_not_new (by rw [hs]; simp)
  · intro st
    exact str_status_not_in_by_status hs st

/-- C10 witness: ingesting one minimal raw record stores a lead under id "L7"
whose status/source are the raw strings and which no status query returns. -/
theorem create_lead_objects_store_raw_strings_witness :
    ∃ l, alookup "L7" (create_lead_objects_from_data emptyManager [rawData0]
        (fun _ => "L7") (fun _ => "2025-01-01 00:00:00")).1.leads = some l ∧
      (∃ s, l.status = StatusVal.str s) ∧
      (∃ t, l.lead_source = SourceVal.str t) ∧
      (∀ c : ScoringCriteria, (qualifiedLead c l).status = l.status) ∧
      (∀ st : LeadStatus,
        l ∉ get_leads_by_status (create_lead_objects_from_data emptyManager [rawData0]
          (fun _ => "L7") (fun _ => "2025-01-01 00:00:00")).1 st) :=
  create_lead_objects_store_raw_strings emptyManager [rawData0]
    (fun _ => "L7") (fun _ => "2025-01-01 00:00:00") "L7" (by decide)
